import Mathlib

/-!
Verification of the Aether-Desk wallpaper orchestration core.

This file gives a shallow embedding, in Lean, of the parts of the
repository that the specification's claims are about:

* `src/core/resource_manager.rs` — the `ResourceManager` bookkeeping
  (register / update / unregister and the aggregate-usage invariant);
* `src/core/scheduler.rs` — the scheduler evaluation loop, the trigger
  dispatch, and `WallpaperScheduler::apply_wallpaper`;
* `src/wallpapers/video_wallpaper.rs` — the `VideoWallpaper`
  start / stop / pause / resume lifecycle;
* `src/platform/linux/mod.rs` and `src/platform/hyprland.rs` — the
  external-tool fallback chains.

Modelling conventions: Rust `u64` / `u32` counters are modelled as `Nat`
with exact arithmetic (the claims under study are about the bookkeeping
logic, not integer wraparound, and all concrete scenarios stay far below
`2^64`); `saturating_sub` is `Nat` subtraction, which saturates at zero;
`f32` CPU percentages are modelled as exact rationals `ℚ` (the claims do
not hinge on float rounding); `Result<T, E>` is `Except`; the `HashMap`
of per-id usages is an association list whose `insert` replaces an
existing binding in place, exactly as `HashMap::insert` does; effectful
calls into the OS (spawning a tool, starting a backend) are parameters
of the embedding: each embedded operation takes the outcome of the
external call as an explicit argument and is a pure function of it.
-/

namespace AetherDesk

/-- Result of a fallible call, mirroring Rust `Result<(), String>` or
`AppResult<()>`. `isErr` mirrors `Result::is_err`. -/
def isErr {ε α : Type} : Except ε α → Bool
  | Except.error _ => true
  | Except.ok _ => false

/-- Mirror of `ResourceUsage` (resource_manager.rs lines 9-19): a
point-in-time measurement. `memory_used` and `gpu_memory_used` are
byte counts (`u64`), `cpu_usage` is an `f32` percentage modelled as
`ℚ`, `active_processes` is a `u32` count. -/
structure ResourceUsage where
  memory_used : Nat
  cpu_usage : ℚ
  gpu_memory_used : Nat
  active_processes : Nat
deriving DecidableEq, Repr

/-- Mirror of `ResourceLimits` (resource_manager.rs lines 22-32). -/
structure ResourceLimits where
  max_memory : Nat
  max_cpu : ℚ
  max_gpu_memory : Nat
  max_processes : Nat
deriving DecidableEq, Repr

/-- Lookup in the per-id map, mirroring `HashMap::get`: the map is
modelled as an association list with at most one binding per key. -/
def mapGet : List (String × ResourceUsage) → String → Option ResourceUsage
  | [], _ => none
  | (k, v) :: rest, id => if k = id then some v else mapGet rest id

/-- Insert into the per-id map, mirroring `HashMap::insert`: replaces
the binding for an existing key in place, otherwise adds a binding. -/
def mapInsert : List (String × ResourceUsage) → String → ResourceUsage →
    List (String × ResourceUsage)
  | [], id, u => [(id, u)]
  | (k, v) :: rest, id, u =>
    if k = id then (id, u) :: rest else (k, v) :: mapInsert rest id u

/-- Remove from the per-id map, mirroring `HashMap::remove`. -/
def mapRemove : List (String × ResourceUsage) → String → List (String × ResourceUsage)
  | [], _ => []
  | (k, v) :: rest, id => if k = id then rest else (k, v) :: mapRemove rest id

/-- The mutable state of a `ResourceManager` (resource_manager.rs lines
46-57): the aggregate usage, the per-id map `active_resources`, and the
two monotonic counters. The fixed `ResourceLimits` are passed to each
operation rather than stored. -/
structure RMState where
  usage : ResourceUsage
  active : List (String × ResourceUsage)
  total_allocated : Nat
  total_freed : Nat
deriving DecidableEq, Repr

/-- A fresh manager, mirroring `ResourceManager::new` (lines 61-74):
zero aggregate usage, empty map, zero counters. -/
def RMState.fresh : RMState :=
  { usage := { memory_used := 0, cpu_usage := 0, gpu_memory_used := 0, active_processes := 0 },
    active := [],
    total_allocated := 0,
    total_freed := 0 }

/-- Mirror of `ResourceManager::register_resource` (lines 77-121).
The three validations (`active.len() >= max_processes`,
`memory_used + usage.memory_used > max_memory`,
`gpu_memory_used + usage.gpu_memory_used > max_gpu_memory`) all happen
before any mutation; on success the id is inserted into the map, the
full usage is added into the aggregate, `active_processes` is
incremented by one, and `total_allocated` grows by `usage.memory_used`. -/
def register_resource (L : ResourceLimits) (st : RMState) (id : String)
    (usage : ResourceUsage) : RMState × Except String Unit :=
  if L.max_processes ≤ st.active.length then
    (st, Except.error ("Maximum number of active processes reached"))
  else if L.max_memory < st.usage.memory_used + usage.memory_used then
    (st, Except.error ("Would exceed maximum memory limit"))
  else if L.max_gpu_memory < st.usage.gpu_memory_used + usage.gpu_memory_used then
    (st, Except.error ("Would exceed maximum GPU memory limit"))
  else
    ({ usage := { memory_used := st.usage.memory_used + usage.memory_used,
                  cpu_usage := st.usage.cpu_usage + usage.cpu_usage,
                  gpu_memory_used := st.usage.gpu_memory_used + usage.gpu_memory_used,
                  active_processes := st.usage.active_processes + 1 },
       active := mapInsert st.active id usage,
       total_allocated := st.total_allocated + usage.memory_used,
       total_freed := st.total_freed },
     Except.ok ())

/-- Second half of `ResourceManager::update_resource` (lines 149-161):
the GPU-memory delta is applied (a growing delta is validated against
`max_gpu_memory` and rejected without touching the GPU field; a
shrinking delta is applied with saturating subtraction), and on the
non-rejected paths the CPU usage is combined and clamped to `≥ 0`.
The state passed in already carries the map overwrite and the memory
mutation performed earlier in the source function. -/
def update_gpu_cpu (L : ResourceLimits) (st : RMState) (gpu_mem_diff : Int)
    (cpu_diff : ℚ) : RMState × Except String Unit :=
  if 0 < gpu_mem_diff then
    let new_gpu_memory : Nat := st.usage.gpu_memory_used + gpu_mem_diff.toNat
    if L.max_gpu_memory < new_gpu_memory then
      (st, Except.error ("Would exceed maximum GPU memory limit"))
    else
      ({ st with usage := { st.usage with
            gpu_memory_used := new_gpu_memory,
            cpu_usage := max (st.usage.cpu_usage + cpu_diff) 0 } },
       Except.ok ())
  else
    ({ st with usage := { st.usage with
          gpu_memory_used := st.usage.gpu_memory_used - gpu_mem_diff.natAbs,
          cpu_usage := max (st.usage.cpu_usage + cpu_diff) 0 } },
     Except.ok ())

/-- Mirror of `ResourceManager::update_resource` (lines 124-167).
Faithful to the source's order of operations: the signed deltas are
computed against the stored usage, then `active.insert(id, new_usage)`
overwrites the map entry BEFORE any limit validation; the memory delta
is then applied (a growing delta is validated and rejected if it would
exceed `max_memory` — with the map already overwritten; a shrinking
delta is applied with saturating subtraction), then the GPU delta and
the CPU clamp via `update_gpu_cpu`. An unknown id is rejected with the
state untouched. -/
def update_resource (L : ResourceLimits) (st : RMState) (id : String)
    (new_usage : ResourceUsage) : RMState × Except String Unit :=
  match mapGet st.active id with
  | none => (st, Except.error ("Resource not found"))
  | some old_usage =>
    let mem_diff : Int := (new_usage.memory_used : Int) - (old_usage.memory_used : Int)
    let gpu_mem_diff : Int := (new_usage.gpu_memory_used : Int) - (old_usage.gpu_memory_used : Int)
    let cpu_diff : ℚ := new_usage.cpu_usage - old_usage.cpu_usage
    let active1 := mapInsert st.active id new_usage
    if 0 < mem_diff then
      let new_memory : Nat := st.usage.memory_used + mem_diff.toNat
      if L.max_memory < new_memory then
        ({ st with active := active1 }, Except.error ("Would exceed maximum memory limit"))
      else
        update_gpu_cpu L
          { st with active := active1,
                    usage := { st.usage with memory_used := new_memory } }
          gpu_mem_diff cpu_diff
    else
      update_gpu_cpu L
        { st with active := active1,
                  usage := { st.usage with memory_used := st.usage.memory_used - mem_diff.natAbs } }
        gpu_mem_diff cpu_diff

/-- Mirror of `ResourceManager::unregister_resource` (lines 170-192):
removes the id's entry, subtracts its recorded usage from the aggregate
with saturating subtraction (CPU clamped at zero, `active_processes`
saturating-decremented by one), and adds the freed memory to
`total_freed`. An unknown id is rejected with the state untouched. -/
def unregister_resource (st : RMState) (id : String) : RMState × Except String Unit :=
  match mapGet st.active id with
  | none => (st, Except.error ("Resource not found"))
  | some usage =>
    ({ usage := { memory_used := st.usage.memory_used - usage.memory_used,
                  cpu_usage := max (st.usage.cpu_usage - usage.cpu_usage) 0,
                  gpu_memory_used := st.usage.gpu_memory_used - usage.gpu_memory_used,
                  active_processes := st.usage.active_processes - 1 },
       active := mapRemove st.active id,
       total_allocated := st.total_allocated,
       total_freed := st.total_freed + usage.memory_used },
     Except.ok ())

/-- Component-wise sum of the usages stored in the per-id map. -/
def sumUsage : List (String × ResourceUsage) → ResourceUsage
  | [] => { memory_used := 0, cpu_usage := 0, gpu_memory_used := 0, active_processes := 0 }
  | (_, u) :: rest =>
    let s := sumUsage rest
    { memory_used := u.memory_used + s.memory_used,
      cpu_usage := u.cpu_usage + s.cpu_usage,
      gpu_memory_used := u.gpu_memory_used + s.gpu_memory_used,
      active_processes := u.active_processes + s.active_processes }

/-- The aggregate-consistency invariant named by the specification: the
aggregate usage equals the component-wise sum of the per-id map. -/
def consistent (st : RMState) : Prop :=
  st.usage = sumUsage st.active

/-- Example limits for the concrete ResourceManager scenarios. -/
def rmLimitsEx : ResourceLimits :=
  { max_memory := 100, max_cpu := 100, max_gpu_memory := 100, max_processes := 10 }

/-- State after `register_resource("a", {memory:50, cpu:0, gpu:0, procs:1})`
on a fresh manager with limits `rmLimitsEx` — the registration succeeds. -/
def rmStateA : RMState :=
  (register_resource rmLimitsEx RMState.fresh ("a")
    { memory_used := 50, cpu_usage := 0, gpu_memory_used := 0, active_processes := 1 }).1

/-- Result of the rejected growing update `update_resource("a",
{memory:200, ...})` on `rmStateA`: the requested memory 200 exceeds
`max_memory = 100`, so the call returns an error. -/
def rmAfterBadUpdate : RMState × Except String Unit :=
  update_resource rmLimitsEx rmStateA ("a")
    { memory_used := 200, cpu_usage := 0, gpu_memory_used := 0, active_processes := 1 }

/-- Claim C1: the spec's core invariant — the aggregate always equals
the component-wise sum of the per-id map, and no call, including a
rejected one, leaves the two inconsistent — is violated by the code:
`update_resource` overwrites the map entry before validating the
limits, so after the rejected update of "a" from 50 to 200 bytes the
map sums to 200 while the aggregate still reads 50. -/
theorem rejected_update_breaks_sum_invariant :
    isErr rmAfterBadUpdate.2 = true ∧
    rmAfterBadUpdate.1.usage.memory_used = 50 ∧
    (sumUsage rmAfterBadUpdate.1.active).memory_used = 200 ∧
    ¬ consistent rmAfterBadUpdate.1 := by
  refine ⟨rfl, rfl, rfl, ?_⟩
  intro h
  have hm := congrArg ResourceUsage.memory_used h
  exact absurd hm (by decide)

/-- State after `register_resource("a", {memory:50, cpu:0, gpu:50, procs:1})`
on a fresh manager with limits `rmLimitsEx` — the registration succeeds. -/
def rmStateB : RMState :=
  (register_resource rmLimitsEx RMState.fresh ("a")
    { memory_used := 50, cpu_usage := 0, gpu_memory_used := 50, active_processes := 1 }).1

/-- Result of `update_resource("a", {memory:20, gpu:200, ...})` on
`rmStateB`: the memory delta shrinks (applied), the GPU delta grows past
`max_gpu_memory = 100`, so the call is rejected — after the map entry
and the aggregate memory were already mutated. -/
def rmAfterBadGpuUpdate : RMState × Except String Unit :=
  update_resource rmLimitsEx rmStateB ("a")
    { memory_used := 20, cpu_usage := 0, gpu_memory_used := 200, active_processes := 1 }

/-- Claim C2: the claim that a rejected growing update leaves the map
entry, the aggregate, and the counters exactly as before is violated:
on the rejected GPU-growing update of "a", the per-id entry has already
been overwritten from `{50,0,50,1}` to `{20,0,200,1}` and the aggregate
`memory_used` has already been lowered from 50 to 20. -/
theorem rejected_update_leaves_partial_mutation :
    isErr rmAfterBadGpuUpdate.2 = true ∧
    mapGet rmStateB.active ("a") =
      some { memory_used := 50, cpu_usage := 0, gpu_memory_used := 50, active_processes := 1 } ∧
    mapGet rmAfterBadGpuUpdate.1.active ("a") =
      some { memory_used := 20, cpu_usage := 0, gpu_memory_used := 200, active_processes := 1 } ∧
    rmStateB.usage.memory_used = 50 ∧
    rmAfterBadGpuUpdate.1.usage.memory_used = 20 :=
  ⟨rfl, rfl, rfl, rfl, rfl⟩

/-- Claim C3: `register_resource` rejects exactly when the aggregate
memory plus the new usage would exceed `max_memory`, or the aggregate
GPU memory plus the new usage would exceed `max_gpu_memory`, or the
number of registered resources has reached `max_processes`; and a
rejected call leaves the whole manager state unchanged. -/
theorem register_resource_reject_iff (L : ResourceLimits) (st : RMState) (id : String)
    (u : ResourceUsage) :
    (isErr (register_resource L st id u).2 = true ↔
      (L.max_memory < st.usage.memory_used + u.memory_used ∨
       L.max_gpu_memory < st.usage.gpu_memory_used + u.gpu_memory_used ∨
       L.max_processes ≤ st.active.length)) ∧
    (isErr (register_resource L st id u).2 = true → (register_resource L st id u).1 = st) := by
  unfold register_resource
  split_ifs with h1 h2 h3 <;> simp [isErr] <;> omega

/-- The spec's concrete limit scenario: `max_memory = 1MB`,
`max_gpu_memory = 512KB`, `max_processes = 2`. -/
def c3Limits : ResourceLimits :=
  { max_memory := 1048576, max_cpu := 50, max_gpu_memory := 524288, max_processes := 2 }

/-- State after registering "a" with `{memory:512KB, gpu:256KB}` under
`c3Limits` — the registration succeeds. -/
def c3StateA : RMState :=
  (register_resource c3Limits RMState.fresh ("a")
    { memory_used := 524288, cpu_usage := 20, gpu_memory_used := 262144, active_processes := 1 }).1

/-- The second registration request of the spec scenario:
`{memory:768KB, gpu:384KB}`. -/
def c3UsageB : ResourceUsage :=
  { memory_used := 786432, cpu_usage := 40, gpu_memory_used := 393216, active_processes := 1 }

/-- Witness for `register_resource_reject_iff`: in the spec's concrete
scenario, registering "b" after "a" exceeds the 1MB memory limit, is
rejected, and leaves the state exactly as after registering "a". -/
theorem register_resource_reject_iff_witness :
    isErr (register_resource c3Limits c3StateA ("b") c3UsageB).2 = true ∧
    (register_resource c3Limits c3StateA ("b") c3UsageB).1 = c3StateA := by
  have h := register_resource_reject_iff c3Limits c3StateA ("b") c3UsageB
  have herr : isErr (register_resource c3Limits c3StateA ("b") c3UsageB).2 = true :=
    h.1.mpr (Or.inl (by decide))
  exact ⟨herr, h.2 herr⟩

/-- Inserting under a key always makes it the key's binding. -/
theorem mapGet_mapInsert_self (m : List (String × ResourceUsage)) (id : String)
    (u : ResourceUsage) : mapGet (mapInsert m id u) id = some u := by
  induction m with
  | nil => simp [mapInsert, mapGet]
  | cons p rest ih =>
    obtain ⟨k, v⟩ := p
    by_cases h : k = id
    · simp [mapInsert, mapGet, h]
    · simp [mapInsert, mapGet, h, ih]

/-- Inserting under a key that is already bound replaces the binding in
place and keeps the map's size. -/
theorem length_mapInsert_of_get (m : List (String × ResourceUsage)) (id : String)
    (u w : ResourceUsage) (h : mapGet m id = some w) :
    (mapInsert m id u).length = m.length := by
  induction m with
  | nil => simp [mapGet] at h
  | cons p rest ih =>
    obtain ⟨k, v⟩ := p
    by_cases hk : k = id
    · simp [mapInsert, hk]
    · simp [mapGet, hk] at h
      simp [mapInsert, hk, ih h]

/-- Claim C10: `register_resource` never checks whether the id is
already registered. Registering an id that is already in the map, while
limits permit, returns Ok, overwrites the map entry with the new usage
(the map does not grow), adds the ENTIRE new usage into the aggregate
without subtracting the old entry's contribution, and increments the
aggregate `active_processes` a second time for the same id. -/
theorem register_resource_duplicate_id (L : ResourceLimits) (st : RMState) (id : String)
    (old_u u : ResourceUsage)
    (hold : mapGet st.active id = some old_u)
    (hp : st.active.length < L.max_processes)
    (hm : st.usage.memory_used + u.memory_used ≤ L.max_memory)
    (hg : st.usage.gpu_memory_used + u.gpu_memory_used ≤ L.max_gpu_memory) :
    (register_resource L st id u).2 = Except.ok () ∧
    mapGet (register_resource L st id u).1.active id = some u ∧
    (register_resource L st id u).1.usage.memory_used = st.usage.memory_used + u.memory_used ∧
    (register_resource L st id u).1.usage.gpu_memory_used
      = st.usage.gpu_memory_used + u.gpu_memory_used ∧
    (register_resource L st id u).1.usage.cpu_usage = st.usage.cpu_usage + u.cpu_usage ∧
    (register_resource L st id u).1.usage.active_processes
      = st.usage.active_processes + 1 ∧
    (register_resource L st id u).1.active.length = st.active.length := by
  have h1 : ¬ (L.max_processes ≤ st.active.length) := by omega
  have h2 : ¬ (L.max_memory < st.usage.memory_used + u.memory_used) := by omega
  have h3 : ¬ (L.max_gpu_memory < st.usage.gpu_memory_used + u.gpu_memory_used) := by omega
  simp [register_resource, h1, h2, h3, mapGet_mapInsert_self,
        length_mapInsert_of_get st.active id u old_u hold]

/-- A manager state with "a" already registered, for the duplicate-id
scenario. -/
def c10State : RMState :=
  { usage := { memory_used := 10, cpu_usage := 0, gpu_memory_used := 10, active_processes := 1 },
    active := [(("a"),
      { memory_used := 10, cpu_usage := 0, gpu_memory_used := 10, active_processes := 1 })],
    total_allocated := 10,
    total_freed := 0 }

/-- The usage stored for "a" in `c10State`. -/
def c10OldUsage : ResourceUsage :=
  { memory_used := 10, cpu_usage := 0, gpu_memory_used := 10, active_processes := 1 }

/-- The usage for the second registration of "a". -/
def c10NewUsage : ResourceUsage :=
  { memory_used := 5, cpu_usage := 0, gpu_memory_used := 5, active_processes := 1 }

/-- Witness for `register_resource_duplicate_id`: re-registering "a"
succeeds, overwrites its entry, double-adds into the aggregate, and
bumps `active_processes` again. -/
theorem register_resource_duplicate_id_witness :
    (register_resource rmLimitsEx c10State ("a") c10NewUsage).2 = Except.ok () ∧
    mapGet (register_resource rmLimitsEx c10State ("a") c10NewUsage).1.active ("a")
      = some c10NewUsage ∧
    (register_resource rmLimitsEx c10State ("a") c10NewUsage).1.usage.memory_used
      = c10State.usage.memory_used + c10NewUsage.memory_used ∧
    (register_resource rmLimitsEx c10State ("a") c10NewUsage).1.usage.gpu_memory_used
      = c10State.usage.gpu_memory_used + c10NewUsage.gpu_memory_used ∧
    (register_resource rmLimitsEx c10State ("a") c10NewUsage).1.usage.cpu_usage
      = c10State.usage.cpu_usage + c10NewUsage.cpu_usage ∧
    (register_resource rmLimitsEx c10State ("a") c10NewUsage).1.usage.active_processes
      = c10State.usage.active_processes + 1 ∧
    (register_resource rmLimitsEx c10State ("a") c10NewUsage).1.active.length
      = c10State.active.length :=
  register_resource_duplicate_id rmLimitsEx c10State ("a") c10OldUsage c10NewUsage
    (by decide) (by decide) (by decide) (by decide)

/-- Mirror of the `WallpaperType` enum (config.rs lines 36-50). -/
inductive WallpaperType
  | Static
  | Video
  | Web
  | Shader
  | Audio
deriving DecidableEq, Repr

/-- Mirror of `WallpaperInfo` (types.rs lines 7-22): the wallpaper spec
consumed by the scheduler. Paths are modelled as strings. -/
structure WallpaperInfo where
  name : String
  description : String
  author : String
  version : String
  type : WallpaperType
  path : Option String
  url : Option String
deriving DecidableEq, Repr

/-- A constructed wallpaper backend, one variant per wallpaper type,
mirroring the five `Box<dyn Wallpaper>` values that
`WallpaperScheduler::apply_wallpaper` can build (scheduler.rs lines
301-342). Each carries its asset path or URL. -/
inductive Backend
  | staticW (path : String)
  | videoW (path : String)
  | webW (url : String)
  | shaderW (path : String)
  | audioW (path : String)
deriving DecidableEq, Repr

/-- Backend construction in `apply_wallpaper` (scheduler.rs lines
301-342): each wallpaper type requires its field (`path` for
Static/Video/Shader/Audio, `url` for Web); a missing field aborts the
swap (the source logs an error and returns). -/
def mkBackend (info : WallpaperInfo) : Option Backend :=
  match info.type with
  | WallpaperType.Static => info.path.map Backend.staticW
  | WallpaperType.Video => info.path.map Backend.videoW
  | WallpaperType.Web => info.url.map Backend.webW
  | WallpaperType.Shader => info.path.map Backend.shaderW
  | WallpaperType.Audio => info.path.map Backend.audioW

/-- Observable events of one `apply_wallpaper` call, in the order the
source performs them: the blocking `stop()` of the currently installed
backend (with its result — the source only logs a failure), the
blocking `start()` of the newly built backend (with its result), and
the installation of the new backend into the current-slot. -/
inductive ApplyEvent
  | stopped (b : Backend) (ok : Bool)
  | started (b : Backend) (ok : Bool)
  | installed (b : Backend)
deriving DecidableEq, Repr

/-- Mirror of `WallpaperScheduler::apply_wallpaper` (scheduler.rs lines
287-352), parameterised by the outcomes of the external `stop()` and
`start()` calls. Returns the new current-slot together with the ordered
event trace: stop the installed backend if any (result only logged),
build the new backend (abort if the spec lacks its field), `start()`
it, and only on success install it in the slot; on a failed start the
source returns before the slot assignment. -/
def apply_wallpaper (stopOk startOk : Backend → Bool) (slot : Option Backend)
    (info : WallpaperInfo) : Option Backend × List ApplyEvent :=
  let tr0 : List ApplyEvent :=
    match slot with
    | some old => [ApplyEvent.stopped old (stopOk old)]
    | none => []
  match mkBackend info with
  | none => (slot, tr0)
  | some nb =>
    if startOk nb then
      (some nb, tr0 ++ [ApplyEvent.started nb true, ApplyEvent.installed nb])
    else
      (slot, tr0 ++ [ApplyEvent.started nb false])

/-- Recognizer for stop events. -/
def isStopEvent : ApplyEvent → Bool
  | ApplyEvent.stopped _ _ => true
  | _ => false

/-- Recognizer for start events. -/
def isStartEvent : ApplyEvent → Bool
  | ApplyEvent.started _ _ => true
  | _ => false

/-- Remove a backend from the attached set. -/
def detach (b : Backend) : List Backend → List Backend
  | [] => []
  | x :: xs => if x = b then detach b xs else x :: detach b xs

/-- How one apply event changes the set of backends attached to the
desktop: a completed `stop()` detaches its backend (best-effort: the
source proceeds even on a stop error), a successful `start()` attaches
the new backend, installation into the slot changes no attachment. -/
def attachStep (att : List Backend) : ApplyEvent → List Backend
  | ApplyEvent.stopped b _ => detach b att
  | ApplyEvent.started b ok => if ok then att ++ [b] else att
  | ApplyEvent.installed _ => att

/-- The largest number of simultaneously attached backends reached at
any point while an event trace runs from an initial attached set. -/
def maxAttached : List Backend → List ApplyEvent → Nat
  | att, [] => att.length
  | att, e :: es => max att.length (maxAttached (attachStep att e) es)

/-- The backends attached before the pass: exactly the slot's content. -/
def slotAttached : Option Backend → List Backend
  | none => []
  | some b => [b]

/-- Claim C4: in every `apply_wallpaper` pass (the path shared by
scheduler trigger firing and manual apply), (1) if a backend is
installed, its `stop()` is invoked — and, being a blocking call,
completes — in the trace; (2) every stop event precedes every start
event; (3) a backend is installed in the slot only after its `start()`
succeeds, and it becomes the slot's sole content; (4) at no point are
two backends simultaneously attached to the desktop. -/
theorem apply_wallpaper_stop_before_start (stopOk startOk : Backend → Bool)
    (slot : Option Backend) (info : WallpaperInfo) :
    (∀ old, slot = some old →
      ApplyEvent.stopped old (stopOk old) ∈ (apply_wallpaper stopOk startOk slot info).2) ∧
    (∀ i j (hi : i < ((apply_wallpaper stopOk startOk slot info).2).length)
        (hj : j < ((apply_wallpaper stopOk startOk slot info).2).length),
        isStopEvent (((apply_wallpaper stopOk startOk slot info).2).get ⟨i, hi⟩) = true →
        isStartEvent (((apply_wallpaper stopOk startOk slot info).2).get ⟨j, hj⟩) = true →
        i < j) ∧
    (∀ b, ApplyEvent.installed b ∈ (apply_wallpaper stopOk startOk slot info).2 →
        startOk b = true ∧ (apply_wallpaper stopOk startOk slot info).1 = some b) ∧
    maxAttached (slotAttached slot) ((apply_wallpaper stopOk startOk slot info).2) ≤ 1 := by
  rcases slot with _ | old
  · rcases hmk : mkBackend info with _ | nb
    · have hap : apply_wallpaper stopOk startOk none info = (none, []) := by
        simp [apply_wallpaper, hmk]
      rw [hap]
      refine ⟨by intro o h; simp at h, ?_, by intro b hb; simp at hb,
              by simp [maxAttached, slotAttached]⟩
      intro i j hi hj
      simp at hi
    · by_cases hs : startOk nb = true
      · have hap : apply_wallpaper stopOk startOk none info =
            (some nb, [ApplyEvent.started nb true, ApplyEvent.installed nb]) := by
          simp [apply_wallpaper, hmk, hs]
        rw [hap]
        refine ⟨by intro o h; simp at h, ?_, ?_, ?_⟩
        · intro i j hi hj h1 h2
          simp at hi hj
          interval_cases i <;> interval_cases j <;> simp_all [isStopEvent, isStartEvent]
        · intro b hb
          simp at hb
          subst hb
          exact ⟨hs, rfl⟩
        · simp [maxAttached, attachStep, slotAttached]
      · have hap : apply_wallpaper stopOk startOk none info =
            (none, [ApplyEvent.started nb false]) := by
          simp [apply_wallpaper, hmk, hs]
        rw [hap]
        refine ⟨by intro o h; simp at h, ?_, by intro b hb; simp at hb, ?_⟩
        · intro i j hi hj h1 h2
          simp at hi hj
          subst hi
          simp [isStopEvent] at h1
        · simp [maxAttached, attachStep, slotAttached]
  · rcases hmk : mkBackend info with _ | nb
    · have hap : apply_wallpaper stopOk startOk (some old) info =
          (some old, [ApplyEvent.stopped old (stopOk old)]) := by
        simp [apply_wallpaper, hmk]
      rw [hap]
      refine ⟨?_, ?_, by intro b hb; simp at hb, ?_⟩
      · intro o ho
        obtain rfl : old = o := by injection ho
        simp
      · intro i j hi hj h1 h2
        simp at hi hj
        subst hj
        simp [isStartEvent] at h2
      · simp [maxAttached, attachStep, slotAttached, detach]
    · by_cases hs : startOk nb = true
      · have hap : apply_wallpaper stopOk startOk (some old) info =
            (some nb, [ApplyEvent.stopped old (stopOk old), ApplyEvent.started nb true,
                       ApplyEvent.installed nb]) := by
          simp [apply_wallpaper, hmk, hs]
        rw [hap]
        refine ⟨?_, ?_, ?_, ?_⟩
        · intro o ho
          obtain rfl : old = o := by injection ho
          simp
        · intro i j hi hj h1 h2
          simp at hi hj
          interval_cases i <;> interval_cases j <;> simp_all [isStopEvent, isStartEvent]
        · intro b hb
          simp at hb
          subst hb
          exact ⟨hs, rfl⟩
        · simp [maxAttached, attachStep, slotAttached, detach]
      · have hap : apply_wallpaper stopOk startOk (some old) info =
            (some old, [ApplyEvent.stopped old (stopOk old), ApplyEvent.started nb false]) := by
          simp [apply_wallpaper, hmk, hs]
        rw [hap]
        refine ⟨?_, ?_, by intro b hb; simp at hb, ?_⟩
        · intro o ho
          obtain rfl : old = o := by injection ho
          simp
        · intro i j hi hj h1 h2
          simp at hi hj
          interval_cases i <;> interval_cases j <;> simp_all [isStopEvent, isStartEvent]
        · simp [maxAttached, attachStep, slotAttached, detach]

/-- Witness for `apply_wallpaper_stop_before_start`: applying a Static
spec while a Video backend is installed: the stop of the Video backend
is in the trace, and afterwards the slot holds only the new Static
backend. -/
theorem apply_wallpaper_stop_before_start_witness :
    ApplyEvent.stopped (Backend.videoW ("/old.mp4")) true ∈
      (apply_wallpaper (fun _ => true) (fun _ => true)
        (some (Backend.videoW ("/old.mp4")))
        { name := ("Day"), description := (""), author := (""), version := ("1.0.0"),
          type := WallpaperType.Static, path := some ("/day.jpg"), url := none }).2 ∧
    (apply_wallpaper (fun _ => true) (fun _ => true)
        (some (Backend.videoW ("/old.mp4")))
        { name := ("Day"), description := (""), author := (""), version := ("1.0.0"),
          type := WallpaperType.Static, path := some ("/day.jpg"), url := none }).1
      = some (Backend.staticW ("/day.jpg")) := by
  have h := apply_wallpaper_stop_before_start (fun _ => true) (fun _ => true)
    (some (Backend.videoW ("/old.mp4")))
    { name := ("Day"), description := (""), author := (""), version := ("1.0.0"),
      type := WallpaperType.Static, path := some ("/day.jpg"), url := none }
  exact ⟨h.1 (Backend.videoW ("/old.mp4")) rfl,
         (h.2.2.1 (Backend.staticW ("/day.jpg")) (by decide)).2⟩

/-- Claim C5: when the newly constructed backend's `start()` fails, the
current-backend slot holds exactly the value it held before the pass;
the failed backend is never installed. -/
theorem apply_wallpaper_failed_start_keeps_slot (stopOk startOk : Backend → Bool)
    (slot : Option Backend) (info : WallpaperInfo) (nb : Backend)
    (hmk : mkBackend info = some nb) (hfail : startOk nb = false) :
    (apply_wallpaper stopOk startOk slot info).1 = slot := by
  simp [apply_wallpaper, hmk, hfail]

/-- Witness for `apply_wallpaper_failed_start_keeps_slot`: a Video item
whose asset path does not exist — its `start()` fails — leaves the slot
holding the same backend it held before. -/
theorem apply_wallpaper_failed_start_keeps_slot_witness :
    (apply_wallpaper (fun _ => true) (fun _ => false)
      (some (Backend.staticW ("/day.jpg")))
      { name := ("Broken"), description := (""), author := (""), version := ("1.0.0"),
        type := WallpaperType.Video, path := some ("/missing/video.mp4"), url := none }).1
    = some (Backend.staticW ("/day.jpg")) :=
  apply_wallpaper_failed_start_keeps_slot (fun _ => true) (fun _ => false)
    (some (Backend.staticW ("/day.jpg")))
    { name := ("Broken"), description := (""), author := (""), version := ("1.0.0"),
      type := WallpaperType.Video, path := some ("/missing/video.mp4"), url := none }
    (Backend.videoW ("/missing/video.mp4")) rfl rfl

/-- Mirror of `chrono::NaiveTime` as used by the scheduler: only the
hour and minute take part in trigger matching (scheduler.rs line 196);
the second is carried but never consulted. -/
structure NaiveTime where
  hour : Nat
  minute : Nat
  second : Nat
deriving DecidableEq, Repr

/-- Mirror of the `TriggerType` enum (scheduler.rs lines 15-27). The
`Interval` payload is a `chrono::Duration`, modelled by its length in
seconds. -/
inductive TriggerType
  | time (t : NaiveTime)
  | interval (seconds : Int)
  | systemEvent (event : String)
  | custom (trigger : String)
deriving DecidableEq, Repr

/-- Mirror of `ScheduleItem` (scheduler.rs lines 31-40). -/
structure ScheduleItem where
  trigger : TriggerType
  wallpaper : WallpaperInfo
  enabled : Bool
deriving DecidableEq, Repr

/-- Trigger dispatch of one evaluation pass (scheduler.rs lines
192-216): a Time trigger fires when the current hour and minute both
match; an Interval trigger fires unconditionally (the source has no
per-item last-fired state — its own comment calls this a
simplification); SystemEvent and Custom triggers only log. -/
def triggerFires (nowHour nowMinute : Nat) : TriggerType → Bool
  | TriggerType.time t => nowHour == t.hour && nowMinute == t.minute
  | TriggerType.interval _ => true
  | TriggerType.systemEvent _ => false
  | TriggerType.custom _ => false

/-- One evaluation pass over the schedule (scheduler.rs lines 186-217):
the items for which `Self::apply_wallpaper` is invoked — the enabled
items whose trigger fires at the current wall-clock hour and minute.
The pass reads the item list and consults no other per-item state. -/
def evalPass (items : List ScheduleItem) (nowHour nowMinute : Nat) : List ScheduleItem :=
  items.filter (fun it => it.enabled && triggerFires nowHour nowMinute it.trigger)

/-- Claim C7: an enabled Interval item fires on every evaluation pass,
whatever its configured duration — the trigger test is constant `true`
and no last-fired state exists to consult. -/
theorem interval_trigger_fires_every_pass (items : List ScheduleItem)
    (nowHour nowMinute : Nat) (it : ScheduleItem) (d : Int)
    (hmem : it ∈ items) (hen : it.enabled = true)
    (htr : it.trigger = TriggerType.interval d) :
    it ∈ evalPass items nowHour nowMinute ∧
    triggerFires nowHour nowMinute it.trigger = true := by
  have hf : triggerFires nowHour nowMinute it.trigger = true := by
    rw [htr]; rfl
  exact ⟨List.mem_filter.mpr ⟨hmem, by simp [hen, hf]⟩, hf⟩

/-- An enabled one-hour Interval schedule item for the C7 witness. -/
def c7Item : ScheduleItem :=
  { trigger := TriggerType.interval 3600,
    wallpaper := { name := ("Rotating"), description := (""), author := (""),
                   version := ("1.0.0"), type := WallpaperType.Static,
                   path := some ("/rot.jpg"), url := none },
    enabled := true }

/-- Witness for `interval_trigger_fires_every_pass`: a one-hour
Interval item fires on a pass at 00:00 even though no hour elapsed. -/
theorem interval_trigger_fires_every_pass_witness :
    c7Item ∈ evalPass [c7Item] 0 0 ∧
    triggerFires 0 0 c7Item.trigger = true :=
  interval_trigger_fires_every_pass [c7Item] 0 0 c7Item 3600 (by simp) rfl rfl

/-- Mirror of one iteration of the scheduler loop's gate (scheduler.rs
lines 177-222): timestamps in whole seconds; the pass condition is
`now.signed_duration_since(last_check) >= Duration::minutes(1)`, and
when it holds the last-check timestamp is set to `now` before the
evaluation pass runs. Returns the new last-check time and whether an
evaluation pass runs on this tick. `Nat` subtraction models the signed
comparison faithfully: a negative elapsed time compares below 60
exactly as the truncated 0 does. -/
def loop_tick (last_check now : Nat) : Nat × Bool :=
  if 60 ≤ now - last_check then (now, true) else (last_check, false)

/-- Number of evaluation passes performed by two consecutive loop ticks
waking at `t1` and `t2`, starting from last-check time `l0`. -/
def two_tick_passes (l0 t1 t2 : Nat) : Nat :=
  let r1 := loop_tick l0 t1
  let r2 := loop_tick r1.1 t2
  (if r1.2 then 1 else 0) + (if r2.2 then 1 else 0)

/-- Two wake times lie inside the same wall-clock minute. -/
def sameWallClockMinute (t1 t2 : Nat) : Prop := t1 / 60 = t2 / 60

/-- Claim C8 counterexample: two loop ticks waking at seconds 10 and 30
(the same wall-clock minute), with the last evaluation recorded at
second 0, perform ZERO evaluation passes, not exactly one: neither tick
sees a full minute elapsed, so the claim's "exactly one pass" fails. -/
theorem two_ticks_same_minute_not_exactly_one :
    sameWallClockMinute 10 30 ∧ two_tick_passes 0 10 30 = 0 ∧
    two_tick_passes 0 10 30 ≠ 1 := by
  exact ⟨rfl, rfl, by decide⟩

/-- Claim C8 (amended): two loop ticks waking inside the same
wall-clock minute perform AT MOST one evaluation pass — a pass runs
exactly when at least one minute has elapsed since the last recorded
evaluation, and a pass updates the last-evaluation timestamp to the
tick's wake time, so the second tick in that minute is coalesced. -/
theorem two_ticks_same_minute_at_most_one_pass (l0 t1 t2 : Nat)
    (hle : t1 ≤ t2) (hmin : sameWallClockMinute t1 t2) :
    two_tick_passes l0 t1 t2 ≤ 1 ∧
    ((loop_tick l0 t1).2 = true ↔ 60 ≤ t1 - l0) ∧
    ((loop_tick l0 t1).2 = true → (loop_tick l0 t1).1 = t1) := by
  have hlt : t2 - t1 < 60 := by
    unfold sameWallClockMinute at hmin
    omega
  refine ⟨?_, ?_, ?_⟩
  · unfold two_tick_passes loop_tick
    by_cases h1 : 60 ≤ t1 - l0
    · have h2 : ¬ (60 ≤ t2 - t1) := by omega
      simp [h1, h2]
    · by_cases h2 : 60 ≤ t2 - l0 <;> simp [h1, h2]
  · unfold loop_tick
    split_ifs with h <;> simp [h]
  · unfold loop_tick
    split_ifs with h <;> simp

/-- Witness for `two_ticks_same_minute_at_most_one_pass`: ticks at
seconds 70 and 100 (both in wall-clock minute 1) with the last
evaluation at second 0: the first tick passes, the second is coalesced. -/
theorem two_ticks_same_minute_at_most_one_pass_witness :
    two_tick_passes 0 70 100 ≤ 1 ∧
    ((loop_tick 0 70).2 = true ↔ 60 ≤ 70 - 0) ∧
    ((loop_tick 0 70).2 = true → (loop_tick 0 70).1 = 70) :=
  two_ticks_same_minute_at_most_one_pass 0 70 100 (by decide) rfl

/-- Mirror of the `AppError` enum (error.rs lines 5-37). Each variant
carries its message; Rust `String::into()` maps plain strings to
`Other`. -/
inductive AppErr
  | configErr (msg : String)
  | platformErr (msg : String)
  | wallpaperErr (msg : String)
  | pluginErr (msg : String)
  | ioErr (msg : String)
  | serializationErr (msg : String)
  | unsupportedPlatform
  | otherErr (msg : String)
deriving DecidableEq, Repr

/-- Whether an error is the `PlatformError` variant. -/
def AppErr.isPlatformErr : AppErr → Bool
  | AppErr.platformErr _ => true
  | _ => false

/-- A spawned media-player child process handle (`std::process::Child`):
`running` records whether the process is still alive. -/
structure MpvChild where
  running : Bool
deriving DecidableEq, Repr

/-- The mutable state of a `VideoWallpaper` (video_wallpaper.rs lines
16-32): the `is_playing` flag and the optional retained child handle. -/
structure VideoWallpaperState where
  is_playing : Bool
  mpv_process : Option MpvChild
deriving DecidableEq, Repr

/-- A freshly constructed `VideoWallpaper` (lines 36-45). -/
def VideoWallpaperState.new : VideoWallpaperState :=
  { is_playing := false, mpv_process := none }

/-- Mirror of `VideoWallpaper::stop` (video_wallpaper.rs lines 237-279):
takes the child handle out of the slot, kills it and waits on it
(failures only logged), and clears `is_playing`; always returns Ok.
After the call the backend owns no process. -/
def videoStop (st : VideoWallpaperState) : VideoWallpaperState × Except AppErr Unit :=
  let _ := st
  ({ is_playing := false, mpv_process := none }, Except.ok ())

/-- Mirror of `VideoWallpaper::start` (video_wallpaper.rs lines
204-235), parameterised by whether the asset path exists and by the
outcome of spawning mpv: a missing path is rejected up front; otherwise
any existing process is stopped, mpv is spawned (a spawn failure is an
error with the state already cleared by the stop), the handle is
retained and `is_playing` set. -/
def videoStart (path_exists : Bool) (spawned : Option MpvChild)
    (st : VideoWallpaperState) : VideoWallpaperState × Except AppErr Unit :=
  if path_exists = false then
    (st, Except.error (AppErr.wallpaperErr ("Video file does not exist")))
  else
    let st1 := (videoStop st).1
    match spawned with
    | none => (st1, Except.error (AppErr.wallpaperErr ("Failed to start MPV")))
    | some child => ({ is_playing := true, mpv_process := some child }, Except.ok ())

/-- Mirror of `VideoWallpaper::pause` (video_wallpaper.rs lines
281-295), faithful to the source: if `is_playing` is set it is cleared,
and the function returns Ok — the child handle in `mpv_process` is
never touched, killed, or waited on. -/
def videoPause (st : VideoWallpaperState) : VideoWallpaperState × Except AppErr Unit :=
  if st.is_playing then
    ({ st with is_playing := false }, Except.ok ())
  else
    (st, Except.ok ())

/-- Mirror of `VideoWallpaper::resume` (video_wallpaper.rs lines
297-313): if not playing, restart via `start`; otherwise a no-op. -/
def videoResume (path_exists : Bool) (spawned : Option MpvChild)
    (st : VideoWallpaperState) : VideoWallpaperState × Except AppErr Unit :=
  if st.is_playing then (st, Except.ok ()) else videoStart path_exists spawned st

/-- Claim C9: the claim says `pause()` behaves as a stop — killing and
waiting on the media-player child so that no running helper process
remains. The code does not do that: on a playing backend with a live
mpv child, `pause()` returns Ok having only cleared the `is_playing`
flag; the child handle is still present and the process still running
(contrast `stop`, which does clear it). -/
theorem video_pause_leaves_child_running :
    (videoPause { is_playing := true, mpv_process := some { running := true } }).2
      = Except.ok () ∧
    (videoPause { is_playing := true, mpv_process := some { running := true } }).1.mpv_process
      = some { running := true } ∧
    (videoPause { is_playing := true, mpv_process := some { running := true } }).1.is_playing
      = false ∧
    (videoStop { is_playing := true, mpv_process := some { running := true } }).1.mpv_process
      = none :=
  ⟨rfl, rfl, rfl, rfl⟩

/-- Outcome of one `Command::output()` call for an external tool:
either the spawn itself failed with an io error, or the tool ran and
exited with the given success status and stderr text. -/
inductive ToolRun
  | ioError (msg : String)
  | exited (success : Bool) (stderr : String)
deriving DecidableEq, Repr

/-- Whether a tool run counts as success: `output.status.success()` on
a completed run; a spawn error is treated as failure (linux/mod.rs uses
`if let Ok(output) = output`). -/
def toolSucceeded : ToolRun → Bool
  | ToolRun.exited true _ => true
  | _ => false

/-- The tools of the Linux static-wallpaper and clear chains, in their
source order. -/
inductive LinuxTool
  | gsettings
  | feh
  | nitrogen
deriving DecidableEq, Repr

/-- The tools of the Hyprland shader chain, in their source order. -/
inductive HyprTool
  | glslviewer
  | shadertoy
deriving DecidableEq, Repr

/-- Mirror of `LinuxWallpaperManager::set_static_wallpaper`
(linux/mod.rs lines 132-191), parameterised by the canonicalized path
(`None` when `canonicalize` fails, which returns early as an io error)
and the outcomes of the three tools. The chain tries gsettings, then
feh, then nitrogen, stopping at the first success; when all fail it
returns `WallpaperError("Failed to set static wallpaper")` — a fixed
message carrying no tool diagnostics. Returns the result and the list
of tools actually invoked. -/
def set_static_wallpaper (canonical : Option String) (g f n : ToolRun) :
    Except AppErr Unit × List LinuxTool :=
  match canonical with
  | none => (Except.error (AppErr.ioErr ("canonicalize failed")), [])
  | some _ =>
    if toolSucceeded g then (Except.ok (), [LinuxTool.gsettings])
    else if toolSucceeded f then (Except.ok (), [LinuxTool.gsettings, LinuxTool.feh])
    else if toolSucceeded n then
      (Except.ok (), [LinuxTool.gsettings, LinuxTool.feh, LinuxTool.nitrogen])
    else
      (Except.error (AppErr.wallpaperErr ("Failed to set static wallpaper")),
       [LinuxTool.gsettings, LinuxTool.feh, LinuxTool.nitrogen])

/-- Mirror of `LinuxWallpaperManager::clear_wallpaper` (linux/mod.rs
lines 279-335): the same gsettings → feh → nitrogen chain with a fixed
`WallpaperError("Failed to clear wallpaper")` on exhaustion. -/
def clear_wallpaper (g f n : ToolRun) : Except AppErr Unit × List LinuxTool :=
  if toolSucceeded g then (Except.ok (), [LinuxTool.gsettings])
  else if toolSucceeded f then (Except.ok (), [LinuxTool.gsettings, LinuxTool.feh])
  else if toolSucceeded n then
    (Except.ok (), [LinuxTool.gsettings, LinuxTool.feh, LinuxTool.nitrogen])
  else
    (Except.error (AppErr.wallpaperErr ("Failed to clear wallpaper")),
     [LinuxTool.gsettings, LinuxTool.feh, LinuxTool.nitrogen])

/-- Mirror of `HyprlandWallpaperManager::set_shader_wallpaper`
(hyprland.rs lines 82-111): glslviewer first (a spawn error aborts the
chain with an Other error via `map_err`/`?`); on a non-zero exit,
shadertoy is tried; if shadertoy also exits non-zero the error carries
shadertoy's stderr — as an `Other` error (`String::into()`), not a
PlatformError. -/
def set_shader_wallpaper (gl sh : ToolRun) : Except AppErr Unit × List HyprTool :=
  match gl with
  | ToolRun.ioError m =>
    (Except.error (AppErr.otherErr ("Failed to execute glslviewer: " ++ m)),
     [HyprTool.glslviewer])
  | ToolRun.exited true _ => (Except.ok (), [HyprTool.glslviewer])
  | ToolRun.exited false _ =>
    match sh with
    | ToolRun.ioError m =>
      (Except.error (AppErr.otherErr ("Failed to execute shadertoy: " ++ m)),
       [HyprTool.glslviewer, HyprTool.shadertoy])
    | ToolRun.exited true _ => (Except.ok (), [HyprTool.glslviewer, HyprTool.shadertoy])
    | ToolRun.exited false e =>
      (Except.error (AppErr.otherErr ("Failed to set shader wallpaper: " ++ e)),
       [HyprTool.glslviewer, HyprTool.shadertoy])

/-- Claim C6 counterexample: when every tool of the Linux static chain
fails, the returned error is `WallpaperError` with the fixed message
"Failed to set static wallpaper" — not a `PlatformError`, and
independent of the tools' stderr (the same error results from entirely
different diagnostics), contradicting the claim that the exhausted
chain returns a PlatformError carrying the last failure's diagnostic. -/
theorem fallback_chain_exhausted_error_counterexample :
    (set_static_wallpaper (some ("/w.png"))
        (ToolRun.exited false ("gsettings failed: schema missing"))
        (ToolRun.exited false ("feh failed: no display"))
        (ToolRun.exited false ("nitrogen failed: no config"))).1
      = Except.error (AppErr.wallpaperErr ("Failed to set static wallpaper")) ∧
    AppErr.isPlatformErr (AppErr.wallpaperErr ("Failed to set static wallpaper")) = false ∧
    (set_static_wallpaper (some ("/w.png"))
        (ToolRun.exited false ("a")) (ToolRun.exited false ("b"))
        (ToolRun.exited false ("c"))).1
      = (set_static_wallpaper (some ("/w.png"))
        (ToolRun.exited false ("gsettings failed: schema missing"))
        (ToolRun.exited false ("feh failed: no display"))
        (ToolRun.exited false ("nitrogen failed: no config"))).1 :=
  ⟨rfl, rfl, rfl⟩

/-- Claim C6 (amended): the chained operations try their tools in the
documented order and return Ok at the first tool that exits zero,
without invoking later tools; when every tool fails, the Linux
static/clear chains return a fixed `WallpaperError` message that does
not carry the last failure's diagnostic, while the Hyprland shader
chain returns an `Other` error that does carry the last tool's stderr;
none of them produces a `PlatformError`. -/
theorem fallback_chain_amended (p : String) (g f n gl sh : ToolRun) :
    (toolSucceeded g = true →
      set_static_wallpaper (some p) g f n = (Except.ok (), [LinuxTool.gsettings]) ∧
      clear_wallpaper g f n = (Except.ok (), [LinuxTool.gsettings])) ∧
    (toolSucceeded g = false → toolSucceeded f = true →
      set_static_wallpaper (some p) g f n
        = (Except.ok (), [LinuxTool.gsettings, LinuxTool.feh]) ∧
      clear_wallpaper g f n = (Except.ok (), [LinuxTool.gsettings, LinuxTool.feh])) ∧
    (toolSucceeded g = false → toolSucceeded f = false → toolSucceeded n = true →
      set_static_wallpaper (some p) g f n
        = (Except.ok (), [LinuxTool.gsettings, LinuxTool.feh, LinuxTool.nitrogen]) ∧
      clear_wallpaper g f n
        = (Except.ok (), [LinuxTool.gsettings, LinuxTool.feh, LinuxTool.nitrogen])) ∧
    (toolSucceeded g = false → toolSucceeded f = false → toolSucceeded n = false →
      set_static_wallpaper (some p) g f n
        = (Except.error (AppErr.wallpaperErr ("Failed to set static wallpaper")),
           [LinuxTool.gsettings, LinuxTool.feh, LinuxTool.nitrogen]) ∧
      clear_wallpaper g f n
        = (Except.error (AppErr.wallpaperErr ("Failed to clear wallpaper")),
           [LinuxTool.gsettings, LinuxTool.feh, LinuxTool.nitrogen])) ∧
    (∀ e1, gl = ToolRun.exited true e1 →
      set_shader_wallpaper gl sh = (Except.ok (), [HyprTool.glslviewer])) ∧
    (∀ e1 e2, gl = ToolRun.exited false e1 → sh = ToolRun.exited false e2 →
      set_shader_wallpaper gl sh
        = (Except.error (AppErr.otherErr ("Failed to set shader wallpaper: " ++ e2)),
           [HyprTool.glslviewer, HyprTool.shadertoy])) := by
  refine ⟨?_, ?_, ?_, ?_, ?_, ?_⟩ <;> intros <;>
    simp_all [set_static_wallpaper, clear_wallpaper, set_shader_wallpaper]

/-- Witness for `fallback_chain_amended`: gsettings fails, feh
succeeds — the Linux static and clear chains stop at feh with Ok and
never invoke nitrogen. -/
theorem fallback_chain_amended_witness :
    set_static_wallpaper (some ("/w.png")) (ToolRun.exited false ("eg"))
        (ToolRun.exited true ("")) (ToolRun.exited false ("en"))
      = (Except.ok (), [LinuxTool.gsettings, LinuxTool.feh]) ∧
    clear_wallpaper (ToolRun.exited false ("eg")) (ToolRun.exited true (""))
        (ToolRun.exited false ("en"))
      = (Except.ok (), [LinuxTool.gsettings, LinuxTool.feh]) :=
  (fallback_chain_amended ("/w.png") (ToolRun.exited false ("eg")) (ToolRun.exited true (""))
      (ToolRun.exited false ("en")) (ToolRun.exited false ("")) (ToolRun.exited false (""))).2.1
    rfl rfl

end AetherDesk
